import Mathlib

/-!
# Verification of the `allure_pytest_ext` failure-propagation core

This file gives a shallow embedding of the failure-propagation and
aggregation state machine implemented in
`src/allure_pytest_ext/plugin.py` and proves (or refutes) the
specification's claims about it.

Modelling conventions:

* Python exceptions are modelled by `Exc`: either a plain exception with a
  kind (its type name) and a message, or an `AggregateError` carrying a
  title and its ordered list of causes (`Exc.combined`).
* The per-thread state (`threading.local` holding `aggregate_stack` and
  `propagate_stack`, plus the stream of `end_step` calls made to the
  reporting collaborator) is passed explicitly as a `Ctx` value.
  The head of each list is the innermost (most recently pushed) entry,
  mirroring Python's `stack[-1]`/`stack.append`/`stack.pop`.
* The `sys.settrace`-based observation hook (`_tracer`) fires on every
  exception raised inside the body of an open propagating step.  The
  embedding assumes the common single-frame usage (all `with` blocks in
  one test function), in which every raise event is seen by the installed
  tracer chain: the innermost open propagating step records the event in
  its own `_caught_exc` slot (first non-sentinel wins), and the event is
  broadcast to the `_observed_caught_exc` slot of every open propagating
  step whose slot is still empty.
* Bodies are syntax trees (`Body`); `runBody` is the interpreter, with an
  escaping exception rendered as the `Option Exc` component of the result.
-/

/-- A Python exception value as far as this plugin observes it: either a
plain exception with its type name (`kind`) and message, or an
`AggregateError` (`plugin.py` line 60) holding a title and the ordered
list of collected causes. -/
inductive Exc where
  | simple (kind : String) (msg : String)
  | combined (title : String) (causes : List Exc)
deriving Repr

/-- `type(e).__name__` for a modelled exception. -/
def excKind : Exc → String
  | .simple k _ => k
  | .combined _ _ => "AggregateError"

/-- Python's `", ".join(parts)`. -/
def joinComma : List String → String
  | [] => ""
  | [s] => s
  | s :: rest => s ++ ", " ++ joinComma rest

mutual
/-- `str(e)` for a modelled exception.  For `AggregateError` this is the
message built in `AggregateError.__init__` (plugin.py lines 64-65):
`f"{len(exceptions)} exception(s) occurred during '{title}': {summary}"`
with `summary = ", ".join(f"{type(e).__name__}: {e}" for e in exceptions)`. -/
def excMsg : Exc → String
  | .simple _ m => m
  | .combined t es =>
      toString es.length ++ " exception(s) occurred during '" ++ t ++ "': "
        ++ joinComma (excSummaries es)

/-- The list `f"{type(e).__name__}: {e}"` for each collected exception. -/
def excSummaries : List Exc → List String
  | [] => []
  | e :: es => (excKind e ++ ": " ++ excMsg e) :: excSummaries es
end

/-- The sentinel control-flow exceptions excluded from capture by the
tracer (plugin.py line 132): `StopIteration` and `GeneratorExit`. -/
def isControlFlow (e : Exc) : Bool :=
  excKind e == "StopIteration" || excKind e == "GeneratorExit"

/-- A status recorded with the reporting collaborator when a step ends:
either PASSED, or FAILED with the kind and message of the exception
handed to the underlying step context manager. -/
inductive RecStatus where
  | passed
  | failed (kind : String) (msg : String)
deriving Repr

/-- The per-instance state of a `_PropagatingStep` (plugin.py lines
96-112) that the exit logic reads: its title, the `propagate` and
`raise_on_parent` flags, and the `_caught_exc` / `_observed_caught_exc`
slots. -/
structure StepFrame where
  title : String
  propagate : Bool
  raiseOnParent : Bool
  caught : Option Exc
  observed : Option Exc
deriving Repr

/-- An `_AggregateState` (plugin.py lines 68-71): a title and the ordered
list of collected exceptions. -/
structure AggState where
  title : String
  exceptions : List Exc
deriving Repr

/-- The per-thread execution context: the propagating-step stack and the
aggregation stack (innermost first, so `stack[-1]` is the head), plus the
stream of statuses recorded with the reporting collaborator, in exit
order. -/
structure Ctx where
  propStack : List StepFrame
  aggStack : List AggState
  report : List (String × RecStatus)
deriving Repr

/-- One update of a propagating step's `_caught_exc` slot by its tracer
(plugin.py lines 130-139): sentinels are ignored, and only the first
meaningful exception is preserved. -/
def tracerStep (caught : Option Exc) (e : Exc) : Option Exc :=
  if isControlFlow e then caught
  else if caught.isNone then some e else caught

/-- The `_caught_exc` slot of one propagating step after its tracer has
seen the given sequence of exception events, in order. -/
def tracerRun (events : List Exc) : Option Exc :=
  events.foldl tracerStep none

/-- The broadcast loop (plugin.py lines 140-143 and 242-247): store the
exception as the observed caught exception of every open propagating step
whose `_observed_caught_exc` slot is still empty. -/
def broadcastObserved (e : Exc) (stack : List StepFrame) : List StepFrame :=
  stack.map fun fr => if fr.observed.isNone then { fr with observed := some e } else fr

/-- The effect of one exception being raised in the body while the given
context is active: if no propagating step is open no tracer is installed
and nothing happens; otherwise the innermost open propagating step's
tracer records a non-sentinel exception in its own `_caught_exc` slot
(first-wins) and broadcasts it to every open propagating step's
`_observed_caught_exc` slot (first-wins per slot). -/
def tracerFire (e : Exc) (ctx : Ctx) : Ctx :=
  match ctx.propStack with
  | [] => ctx
  | fr :: rest =>
      if isControlFlow e then ctx
      else
        { ctx with
            propStack := broadcastObserved e ({ fr with caught := tracerStep fr.caught e } :: rest) }

/-- The active exception selected at the start of `_PropagatingStep.__exit__`
(plugin.py lines 219-224): an exception that escaped the body is preferred;
otherwise `self._caught_exc or self._observed_caught_exc`. -/
def activeExc (fr : StepFrame) (escaped : Option Exc) : Option Exc :=
  match escaped with
  | some e => some e
  | none =>
      match fr.caught with
      | some e => some e
      | none => fr.observed

/-- Append an exception to the `exceptions` list of the innermost open
aggregation (`aggregate_stack[-1].exceptions.append(...)`). -/
def pushToTopAgg (e : Exc) (stack : List AggState) : List AggState :=
  match stack with
  | [] => []
  | a :: rest => { a with exceptions := a.exceptions ++ [e] } :: rest

/-- The status-and-propagation logic of `_PropagatingStep.__exit__`
(plugin.py lines 216-272), after the step has already been popped from the
propagating-step stack and its tracers restored.  `fr` is the step's own
frame (with the `_caught_exc`/`_observed_caught_exc` slots as they stand
at exit time), `escaped` the exception that escaped the body, and the
returned `Option Exc` is the exception raised (or re-raised) to the
caller, `none` meaning a normal return. -/
def stepExitCore (fr : StepFrame) (escaped : Option Exc) (ctx : Ctx) : Ctx × Option Exc :=
  let inAggregate := !ctx.aggStack.isEmpty
  match activeExc fr escaped with
  | none =>
      -- lines 227-231: nothing active, close the step normally (PASSED)
      ({ ctx with report := ctx.report ++ [(fr.title, RecStatus.passed)] }, none)
  | some e =>
      -- lines 241-247: ensure parents know about this failure
      let ctx := { ctx with propStack := broadcastObserved e ctx.propStack }
      if inAggregate then
        -- lines 249-256: mark failed with a generic AssertionError, collect
        -- the original exception into the innermost aggregation, suppress
        ({ ctx with
            report := ctx.report ++ [(fr.title, RecStatus.failed "AssertionError" (excMsg e))],
            aggStack := pushToTopAgg e ctx.aggStack }, none)
      else
        -- lines 258-260: mark the step according to the real exception
        let ctx := { ctx with
            report := ctx.report ++ [(fr.title, RecStatus.failed (excKind e) (excMsg e))] }
        if escaped.isSome then
          -- lines 263-265: a real exception escaped the body, let it propagate
          (ctx, escaped)
        else if fr.propagate && fr.raiseOnParent then
          -- lines 269-270: only raise the caught exception if configured to
          (ctx, some e)
        else
          -- line 272
          (ctx, none)

/-- The logic of `_AggregateStep.__exit__` (plugin.py lines 291-327), after
the aggregation's own state (with `collected` as its exception list) has
been popped from the aggregation stack.  Returns the updated context and
the exception raised to the caller, if any. -/
def aggExitCore (title : String) (collected : List Exc) (escaped : Option Exc)
    (ctx : Ctx) : Ctx × Option Exc :=
  -- lines 301-307: if the aggregate body raised, collect that exception
  let collected := match escaped with
    | some e => collected ++ [e]
    | none => collected
  if collected.isEmpty then
    -- lines 323-327: close the step normally (PASSED)
    ({ ctx with report := ctx.report ++ [(title, RecStatus.passed)] }, none)
  else
    -- lines 309-315: mark the aggregate step as failed with the aggregated
    -- error, forcing the status via a generic AssertionError
    let aggErr := Exc.combined title collected
    let ctx := { ctx with
        report := ctx.report ++ [(title, RecStatus.failed "AssertionError" (excMsg aggErr))] }
    match ctx.aggStack with
    | a :: rest =>
        -- lines 316-319: defer to the parent aggregate, collect and suppress
        ({ ctx with aggStack := { a with exceptions := a.exceptions ++ [aggErr] } :: rest }, none)
    | [] =>
        -- line 321: no parent aggregate, raise the aggregated error now
        (ctx, some aggErr)

/-- Syntax of step bodies: no-ops, raising an exception that escapes,
raising an exception that the body itself catches (visible only to the
tracer), sequencing, `allure.step(title, propagate, raise_on_parent)`
blocks and `allure.aggregate_step(title)` blocks. -/
inductive Body where
  | nop
  | raiseE (e : Exc)
  | caught (e : Exc)
  | seq (a b : Body)
  | scope (title : String) (propagate raiseOnParent : Bool) (body : Body)
  | aggregate (title : String) (body : Body)

/-- The interpreter: run a body in a context, returning the final context
and the exception escaping the body, if any.  Scope entry and exit follow
`_PropagatingStep.__enter__`/`__exit__` and
`_AggregateStep.__enter__`/`__exit__`. -/
def runBody : Body → Ctx → Ctx × Option Exc
  | .nop, ctx => (ctx, none)
  | .raiseE e, ctx => (tracerFire e ctx, some e)
  | .caught e, ctx => (tracerFire e ctx, none)
  | .seq a b, ctx =>
      match runBody a ctx with
      | (ctx1, none) => runBody b ctx1
      | (ctx1, some e) => (ctx1, some e)
  | .scope title p rop body, ctx =>
      -- __enter__ (lines 114-118): push onto the propagate stack iff propagate
      let fr0 : StepFrame := ⟨title, p, rop, none, none⟩
      let ctx1 := if p then { ctx with propStack := fr0 :: ctx.propStack } else ctx
      let (ctx2, esc) := runBody body ctx1
      -- __exit__ (lines 195-205): pop self from the propagate stack; under
      -- correct nesting self is the top entry.  A non-propagating step was
      -- never pushed and its slots are never written.
      let (fr, ctx3) :=
        if p then
          match ctx2.propStack with
          | f :: rest => (f, { ctx2 with propStack := rest })
          | [] => (fr0, ctx2)
        else (fr0, ctx2)
      stepExitCore fr esc ctx3
  | .aggregate title body, ctx =>
      -- __enter__ (line 285): push a fresh aggregation state
      let ctx1 := { ctx with aggStack := ⟨title, []⟩ :: ctx.aggStack }
      let (ctx2, esc) := runBody body ctx1
      -- __exit__ (lines 297-298): pop the state (defensively fresh if empty)
      let (st, ctx3) :=
        match ctx2.aggStack with
        | s :: rest => (s, { ctx2 with aggStack := rest })
        | [] => (⟨title, []⟩, ctx2)
      aggExitCore title st.exceptions esc ctx3

/-- The empty per-thread context a test starts from. -/
def emptyCtx : Ctx := ⟨[], [], []⟩

/-- Run a whole test body from the empty context. -/
def runProgram (b : Body) : Ctx × Option Exc := runBody b emptyCtx

/-! ## Specification-side rendering of a combined error

For the rendering claim, the format stated by the specification is written
out as its own definition, to be compared with `excMsg`, which is the
translation of `AggregateError.__init__`. -/

/-- The cause list as the specification words it: each cause contributes
`<kind>: <msg>`, separated by `, `, in causal order. -/
def specCauseSummaries : List Exc → String
  | [] => ""
  | [e] => excKind e ++ ": " ++ excMsg e
  | e :: es => excKind e ++ ": " ++ excMsg e ++ ", " ++ specCauseSummaries es

/-- The specification's stated rendering:
`"<n> exception(s) occurred during '<title>': <kind1>: <msg1>, <kind2>: <msg2>, ..."`. -/
def specCombinedRender (t : String) (es : List Exc) : String :=
  toString es.length ++ " exception(s) occurred during '" ++ t ++ "': " ++ specCauseSummaries es

theorem joinComma_excSummaries (es : List Exc) :
    joinComma (excSummaries es) = specCauseSummaries es := by
  induction es with
  | nil => rfl
  | cons e rest ih =>
      cases rest with
      | nil => rfl
      | cons f rest' =>
          calc joinComma (excSummaries (e :: f :: rest'))
              = (excKind e ++ ": " ++ excMsg e) ++ ", "
                  ++ joinComma (excSummaries (f :: rest')) := rfl
            _ = (excKind e ++ ": " ++ excMsg e) ++ ", "
                  ++ specCauseSummaries (f :: rest') := by rw [ih]
            _ = specCauseSummaries (e :: f :: rest') := rfl

/-- C7: For every CombinedError built from title t and a non-empty cause
list es, its text rendering equals
`"<n> exception(s) occurred during '<t>': <kind1>: <msg1>, <kind2>: <msg2>, ..."`
where n is the number of causes and each cause appears in causal order
with its type-or-kind tag and its message. -/
theorem aggregate_error_rendering_matches_spec (t : String) (es : List Exc)
    (_h : es ≠ []) : excMsg (Exc.combined t es) = specCombinedRender t es := by
  unfold excMsg specCombinedRender
  rw [joinComma_excSummaries]

/-- Witness for C7 at a concrete two-cause error. -/
theorem aggregate_error_rendering_matches_spec_witness :
    excMsg (Exc.combined "A" [Exc.simple "AssertionError" "e1", Exc.simple "RuntimeError" "e2"])
      = specCombinedRender "A" [Exc.simple "AssertionError" "e1", Exc.simple "RuntimeError" "e2"] :=
  aggregate_error_rendering_matches_spec "A" _ (by simp)

theorem foldl_tracerStep_some (es : List Exc) (a : Exc) :
    es.foldl tracerStep (some a) = some a := by
  induction es with
  | nil => rfl
  | cons e rest ih => simpa [tracerStep] using ih

/-- C9: For every propagating scope, only the first internally-caught
non-sentinel error per scope is retained by the observation mechanism
(first-wins): the `_caught_exc` slot after any sequence of exception
events is the first event that is not a control-flow sentinel, so
sentinels (`StopIteration`, `GeneratorExit`) are never captured and any
later events are invisible.  In the interpreter, a sentinel event leaves
the whole context untouched. -/
theorem tracer_first_nonsentinel_wins :
    (∀ events : List Exc, tracerRun events = events.find? (fun e => !isControlFlow e)) ∧
    (∀ (e : Exc) (ctx : Ctx), isControlFlow e = true → tracerFire e ctx = ctx) := by
  constructor
  · intro events
    induction events with
    | nil => rfl
    | cons e rest ih =>
        by_cases hc : isControlFlow e
        · simpa [tracerRun, List.foldl, tracerStep, hc, List.find?, tracerRun] using ih
        · simp [tracerRun, List.foldl, tracerStep, hc, List.find?, foldl_tracerStep_some]
  · intro e ctx h
    unfold tracerFire
    cases ctx.propStack with
    | nil => rfl
    | cons fr rest => simp [h]

/-- Witness for C9: a `StopIteration` sentinel is never captured. -/
theorem tracer_first_nonsentinel_wins_witness :
    tracerFire (Exc.simple "StopIteration" "s")
        ⟨[⟨"P", true, false, none, none⟩], [], []⟩
      = ⟨[⟨"P", true, false, none, none⟩], [], []⟩ :=
  tracer_first_nonsentinel_wins.2 _ _ rfl

/-- C3: For every aggregation scope exit: an error that escaped the body
directly is first appended to `collected`; then, if `collected` is empty
the scope records PASSED and raises nothing; if `collected` is non-empty
it records FAILED and builds one CombinedError over `collected`, which is
raised to the caller when no enclosing aggregation is open, and otherwise
appended as exactly one cause (not unpacked into its individual causes)
to the enclosing aggregation's `collected`, with nothing raised. -/
theorem aggregate_exit_spec (title : String) (col : List Exc) (esc : Option Exc) (ctx : Ctx) :
    (col ++ esc.toList = [] →
      aggExitCore title col esc ctx
        = ({ ctx with report := ctx.report ++ [(title, RecStatus.passed)] }, none)) ∧
    (col ++ esc.toList ≠ [] →
      (ctx.aggStack = [] →
        aggExitCore title col esc ctx
          = ({ ctx with
                report := ctx.report ++ [(title, RecStatus.failed "AssertionError"
                  (excMsg (Exc.combined title (col ++ esc.toList))))] },
             some (Exc.combined title (col ++ esc.toList)))) ∧
      (∀ a rest, ctx.aggStack = a :: rest →
        aggExitCore title col esc ctx
          = ({ ctx with
                aggStack := { a with
                  exceptions := a.exceptions ++ [Exc.combined title (col ++ esc.toList)] } :: rest,
                report := ctx.report ++ [(title, RecStatus.failed "AssertionError"
                  (excMsg (Exc.combined title (col ++ esc.toList))))] },
             none))) := by
  constructor
  · intro h
    have hc : col = [] := by cases esc <;> simp_all
    have he : esc = none := by cases esc <;> simp_all
    subst hc he
    rfl
  · intro h
    constructor
    · intro hstk
      cases esc with
      | none =>
          unfold aggExitCore
          simp_all [List.isEmpty_iff]
      | some e =>
          unfold aggExitCore
          simp_all [List.isEmpty_iff]
    · intro a rest hstk
      cases esc with
      | none =>
          unfold aggExitCore
          simp_all [List.isEmpty_iff]
      | some e =>
          unfold aggExitCore
          simp_all [List.isEmpty_iff]

/-- Witness for C3: one collected failure, no enclosing aggregation. -/
theorem aggregate_exit_spec_witness :
    aggExitCore "A" [Exc.simple "AssertionError" "e2"] none ⟨[], [], []⟩
      = (⟨[], [], [("A", RecStatus.failed "AssertionError"
            (excMsg (Exc.combined "A" [Exc.simple "AssertionError" "e2"])))]⟩,
         some (Exc.combined "A" [Exc.simple "AssertionError" "e2"])) :=
  ((aggregate_exit_spec "A" [Exc.simple "AssertionError" "e2"] none ⟨[], [], []⟩).2
    (by simp)).1 rfl

/-- C4: For every scope exit with an active error while an aggregation
scope is open: the scope records FAILED using a generic failure kind
(the constant `AssertionError` wrapping the message, not the original
error's kind), appends the original active error unchanged to the top
aggregation's `collected`, and suppresses propagation (no exception is
returned to the enclosing body). -/
theorem scope_exit_in_aggregate_collects_and_suppresses
    (fr : StepFrame) (esc : Option Exc) (ctx : Ctx) (e : Exc) (a : AggState)
    (rest : List AggState) (hact : activeExc fr esc = some e)
    (hagg : ctx.aggStack = a :: rest) :
    stepExitCore fr esc ctx
      = ({ ctx with
            propStack := broadcastObserved e ctx.propStack,
            aggStack := { a with exceptions := a.exceptions ++ [e] } :: rest,
            report := ctx.report ++ [(fr.title, RecStatus.failed "AssertionError" (excMsg e))] },
         none) := by
  unfold stepExitCore
  rw [hact]
  simp [hagg, pushToTopAgg]

/-- Witness for C4: an escaped `RuntimeError` under an open aggregation is
recorded generically, collected unchanged and suppressed. -/
theorem scope_exit_in_aggregate_collects_and_suppresses_witness :
    stepExitCore ⟨"C", false, false, none, none⟩ (some (Exc.simple "RuntimeError" "e2"))
        ⟨[], [⟨"A", []⟩], []⟩
      = (⟨[], [⟨"A", [Exc.simple "RuntimeError" "e2"]⟩],
          [("C", RecStatus.failed "AssertionError" "e2")]⟩, none) :=
  scope_exit_in_aggregate_collects_and_suppresses ⟨"C", false, false, none, none⟩
    (some (Exc.simple "RuntimeError" "e2")) ⟨[], [⟨"A", []⟩], []⟩
    (Exc.simple "RuntimeError" "e2") ⟨"A", []⟩ [] rfl rfl

/-- C8: For every scope whose body raises an error that escapes uncaught
while no aggregation scope is open, the scope records status FAILED using
the original error (its own kind and message) and re-raises that same
error unchanged to the immediate caller. -/
theorem escaped_error_reraised_unchanged (fr : StepFrame) (e : Exc) (ctx : Ctx)
    (h : ctx.aggStack = []) :
    stepExitCore fr (some e) ctx
      = ({ ctx with
            propStack := broadcastObserved e ctx.propStack,
            report := ctx.report ++ [(fr.title, RecStatus.failed (excKind e) (excMsg e))] },
         some e) := by
  unfold stepExitCore
  have hact : activeExc fr (some e) = some e := rfl
  rw [hact]
  simp [h]

/-- Witness for C8: an uncaught `ValueError` is recorded with its own kind
and re-raised as-is. -/
theorem escaped_error_reraised_unchanged_witness :
    stepExitCore ⟨"S1", false, false, none, none⟩ (some (Exc.simple "ValueError" "boom"))
        ⟨[], [], []⟩
      = (⟨[], [], [("S1", RecStatus.failed "ValueError" "boom")]⟩,
         some (Exc.simple "ValueError" "boom")) :=
  escaped_error_reraised_unchanged _ _ _ rfl

/-- C10: For every scope exit with an active error — including an error
that escaped the body uncaught, not only one captured by the observation
hook — the error is stored as the observed caught error of every other
currently-open propagating scope on the same thread whose observed slot is
still empty (the exiting scope itself having already been popped), before
the scope's own status handling.  Consequently (second and third
conjuncts, a concrete two-exit run) an enclosing propagate=true scope
whose tracer captured no event is marked FAILED by a descendant's escaped
failure. -/
theorem exit_broadcasts_to_open_propagating_scopes :
    (∀ (fr : StepFrame) (esc : Option Exc) (ctx : Ctx) (e : Exc),
        activeExc fr esc = some e →
        (stepExitCore fr esc ctx).1.propStack = broadcastObserved e ctx.propStack) ∧
    (stepExitCore ⟨"C", false, false, none, none⟩ (some (Exc.simple "ValueError" "boom"))
        ⟨[⟨"P", true, false, none, none⟩], [⟨"A", []⟩], []⟩
      = (⟨[⟨"P", true, false, none, some (Exc.simple "ValueError" "boom")⟩],
          [⟨"A", [Exc.simple "ValueError" "boom"]⟩],
          [("C", RecStatus.failed "AssertionError" "boom")]⟩, none)) ∧
    (stepExitCore ⟨"P", true, false, none, some (Exc.simple "ValueError" "boom")⟩ none
        ⟨[], [⟨"A", [Exc.simple "ValueError" "boom"]⟩],
          [("C", RecStatus.failed "AssertionError" "boom")]⟩
      = (⟨[], [⟨"A", [Exc.simple "ValueError" "boom", Exc.simple "ValueError" "boom"]⟩],
          [("C", RecStatus.failed "AssertionError" "boom"),
           ("P", RecStatus.failed "AssertionError" "boom")]⟩, none)) := by
  refine ⟨?_, rfl, rfl⟩
  intro fr esc ctx e hact
  unfold stepExitCore
  rw [hact]
  by_cases hagg : ctx.aggStack.isEmpty <;>
    by_cases hesc : esc.isSome <;>
    by_cases hpr : fr.propagate && fr.raiseOnParent <;>
    simp [hagg, hesc, hpr]

/-- Witness for C10: the broadcast conjunct applied at a concrete exit. -/
theorem exit_broadcasts_to_open_propagating_scopes_witness :
    (stepExitCore ⟨"C", false, false, none, none⟩ (some (Exc.simple "E" "b"))
        ⟨[⟨"P", true, false, none, none⟩], [], []⟩).1.propStack
      = broadcastObserved (Exc.simple "E" "b") [⟨"P", true, false, none, none⟩] :=
  exit_broadcasts_to_open_propagating_scopes.1 _ _ _ _ rfl

/-- C1 counterexample: a scope with propagate=true, raise_on_parent=false
whose body raises and internally catches `ValueError("x")` records FAILED
— but its exit returns normally (`none`): the captured error is NOT
re-raised to the caller, refuting the claimed re-raise. -/
theorem propagate_default_no_reraise_cex :
    runProgram (.scope "S1" true false (.caught (Exc.simple "ValueError" "x")))
      = (⟨[], [], [("S1", RecStatus.failed "ValueError" "x")]⟩, none) := rfl

/-- C1 amended: for every scope with propagate=true and raise_on_parent=false
whose body raises and internally catches a non-sentinel error, the scope's
exit records status FAILED with the reporting collaborator using the
original error's kind and message, and returns normally without re-raising
the captured error. -/
theorem propagate_default_records_failed_no_raise (t : String) (e : Exc)
    (h : isControlFlow e = false) :
    runProgram (.scope t true false (.caught e))
      = (⟨[], [], [(t, RecStatus.failed (excKind e) (excMsg e))]⟩, none) := by
  simp [runProgram, runBody, emptyCtx, tracerFire, tracerStep, broadcastObserved,
    stepExitCore, activeExc, h]

/-- Witness for the amended C1. -/
theorem propagate_default_records_failed_no_raise_witness :
    runProgram (.scope "S1" true false (.caught (Exc.simple "RuntimeError" "nope")))
      = (⟨[], [], [("S1", RecStatus.failed "RuntimeError" "nope")]⟩, none) :=
  propagate_default_records_failed_no_raise "S1" (Exc.simple "RuntimeError" "nope") rfl

/-- C2 counterexample: a child scope with propagate=true and
raise_on_parent=true, nested inside an open propagating parent scope,
whose body only internally catches `ValueError("x")`, raises the error at
its OWN boundary: the sibling scope "S" after it never runs (no entry in
the report) and the error escapes through the parent, refuting the claim
that nothing is raised at the child's own boundary. -/
theorem raise_on_parent_child_raises_at_own_boundary_cex :
    runProgram (.scope "P" true false
        (.seq (.scope "C" true true (.caught (Exc.simple "ValueError" "x")))
              (.scope "S" false false .nop)))
      = (⟨[], [], [("C", RecStatus.failed "ValueError" "x"),
                   ("P", RecStatus.failed "ValueError" "x")]⟩,
         some (Exc.simple "ValueError" "x")) := rfl

/-- C2 amended: deferral to the parent's boundary is configured on the
PARENT, not the child: a nested scope with propagate=true and
raise_on_parent=false records FAILED without raising at its own boundary
(so the sibling scope after it still runs and passes), while the enclosing
scope with propagate=true and raise_on_parent=true receives the error by
broadcast and raises it at its own boundary.  A scope whose own
raise_on_parent is true raises at its own boundary even when nested. -/
theorem raise_on_parent_parent_flag_defers_to_parent_boundary
    (tP tC tS : String) (e : Exc) (h : isControlFlow e = false) :
    runProgram (.scope tP true true
        (.seq (.scope tC true false (.caught e))
              (.scope tS false false .nop)))
      = (⟨[], [], [(tC, RecStatus.failed (excKind e) (excMsg e)),
                   (tS, RecStatus.passed),
                   (tP, RecStatus.failed (excKind e) (excMsg e))]⟩,
         some e) := by
  simp [runProgram, runBody, emptyCtx, tracerFire, tracerStep, broadcastObserved,
    stepExitCore, activeExc, h]

/-- Witness for the amended C2. -/
theorem raise_on_parent_parent_flag_defers_to_parent_boundary_witness :
    runProgram (.scope "P" true true
        (.seq (.scope "C1" true false (.caught (Exc.simple "ValueError" "boom")))
              (.scope "C2" false false .nop)))
      = (⟨[], [], [("C1", RecStatus.failed "ValueError" "boom"),
                   ("C2", RecStatus.passed),
                   ("P", RecStatus.failed "ValueError" "boom")]⟩,
         some (Exc.simple "ValueError" "boom")) :=
  raise_on_parent_parent_flag_defers_to_parent_boundary "P" "C1" "C2"
    (Exc.simple "ValueError" "boom") rfl

/-- C5 counterexample: under one aggregation, a propagating child scope
internally catches `ValueError("x")`; the broadcast also stores it in the
enclosing propagating parent scope.  Both exits append the same failure to
the aggregation's `collected`, so the final CombinedError lists the single
captured failure TWICE — it is duplicated, refuting exactly-once
accounting. -/
theorem captured_failure_duplicated_in_aggregation_cex :
    runProgram (.aggregate "A" (.scope "P" true false
        (.scope "C" true false (.caught (Exc.simple "ValueError" "x")))))
      = (⟨[], [], [("C", RecStatus.failed "AssertionError" "x"),
                   ("P", RecStatus.failed "AssertionError" "x"),
                   ("A", RecStatus.failed "AssertionError"
                     "2 exception(s) occurred during 'A': ValueError: x, ValueError: x")]⟩,
         some (Exc.combined "A"
           [Exc.simple "ValueError" "x", Exc.simple "ValueError" "x"])) := rfl

/-- C5 amended: a captured failure is appended to the open aggregation's
`collected` once per scope exit that holds it as its active error, so a
failure observed by several nested propagating scopes is collected once
per observing scope: with a propagating parent and child under one
aggregation the CombinedError lists it exactly twice.  (It can also be
dropped entirely: with propagate=true, raise_on_parent=false and no open
aggregation the captured error is neither raised nor collected.) -/
theorem broadcast_observed_failure_collected_once_per_scope
    (tA tP tC : String) (e : Exc) (h : isControlFlow e = false) :
    (runProgram (.aggregate tA (.scope tP true false
        (.scope tC true false (.caught e))))).2
      = some (Exc.combined tA [e, e]) := by
  simp [runProgram, runBody, emptyCtx, tracerFire, tracerStep, broadcastObserved,
    stepExitCore, activeExc, pushToTopAgg, aggExitCore, h]

/-- Witness for the amended C5. -/
theorem broadcast_observed_failure_collected_once_per_scope_witness :
    (runProgram (.aggregate "A" (.scope "P" true false
        (.scope "C" true false (.caught (Exc.simple "AssertionError" "boom")))))).2
      = some (Exc.combined "A"
          [Exc.simple "AssertionError" "boom", Exc.simple "AssertionError" "boom"]) :=
  broadcast_observed_failure_collected_once_per_scope "A" "P" "C"
    (Exc.simple "AssertionError" "boom") rfl

/-- C6 counterexample: with no enclosing scope and an internally-caught
`ValueError("x")`, raise_on_parent=true raises the error at the scope's
own boundary while raise_on_parent=false returns normally — the two
configurations are observably different, refuting the claimed
equivalence. -/
theorem raise_on_parent_flag_changes_behavior_cex :
    (runProgram (.scope "C" true true (.caught (Exc.simple "ValueError" "x")))).2
        = some (Exc.simple "ValueError" "x") ∧
      (runProgram (.scope "C" true false (.caught (Exc.simple "ValueError" "x")))).2
        = none :=
  ⟨rfl, rfl⟩

/-- C6 amended: with no enclosing scope, a scope with propagate=true and
raise_on_parent=true records FAILED and raises the internally-caught error
at its own boundary (the same behavior raise_on_parent=true has when
nested); raise_on_parent=false records FAILED without raising, so the two
flags are NOT observationally identical. -/
theorem raise_on_parent_no_parent_raises_at_own_boundary (t : String) (e : Exc)
    (h : isControlFlow e = false) :
    runProgram (.scope t true true (.caught e))
      = (⟨[], [], [(t, RecStatus.failed (excKind e) (excMsg e))]⟩, some e) := by
  simp [runProgram, runBody, emptyCtx, tracerFire, tracerStep, broadcastObserved,
    stepExitCore, activeExc, h]

/-- Witness for the amended C6. -/
theorem raise_on_parent_no_parent_raises_at_own_boundary_witness :
    runProgram (.scope "C" true true (.caught (Exc.simple "AssertionError" "x")))
      = (⟨[], [], [("C", RecStatus.failed "AssertionError" "x")]⟩,
         some (Exc.simple "AssertionError" "x")) :=
  raise_on_parent_no_parent_raises_at_own_boundary "C" (Exc.simple "AssertionError" "x") rfl
